import Mathlib

/-!
Verification of the freesound forum subsystem's denormalized-counter rules.

The repository ships the forum test suite (`src/forum/tests.py`); the model
and view code it exercises (`forum/models.py`, `forum/views.py`) is not part
of the sources, so the reactive update rules (Django signal handlers) and the
thread view are modelled here from the specification: a `Forum` aggregates
`num_threads`, `num_posts` and the most recent moderated post `last_post`
across all its threads; a `Thread` aggregates `num_posts` and `last_post`
among its own posts; only posts with moderation state `OK` count toward
aggregates; a thread left with no posts at all is deleted when its last
moderated post is removed; subscriptions are deduplicated per
(thread, subscriber) pair; reply notifications go to every subscriber of the
thread except the author of the new post.

Posts are created with strictly increasing identifiers, so "most recent"
means "largest id".
-/

/-- Moderation state of a forum post: `OK` (moderated, visible) or
`NM` (not moderated, awaiting review). -/
inductive ModState
  | OK
  | NM
deriving DecidableEq

/-- A forum post: belongs to exactly one thread, carries a moderation state
and a body. Modelled from the spec: `forum/models.py` is not in the sources. -/
structure Post where
  id : Nat
  threadId : Nat
  authorId : Nat
  body : String
  moderation_state : ModState
deriving DecidableEq

/-- A thread: belongs to exactly one forum; denormalized aggregates
`num_posts` and `last_post` range over its own moderated posts.
Modelled from the spec: `forum/models.py` is not in the sources. -/
structure Thread where
  id : Nat
  forumId : Nat
  title : String
  authorId : Nat
  num_posts : Nat
  last_post : Option Nat
  first_post : Option Nat
deriving DecidableEq

/-- A forum: denormalized aggregates `num_threads`, `num_posts` and
`last_post` range over all its threads' moderated posts.
Modelled from the spec: `forum/models.py` is not in the sources. -/
structure Forum where
  id : Nat
  name : String
  name_slug : String
  description : String
  num_threads : Nat
  num_posts : Nat
  last_post : Option Nat
deriving DecidableEq

/-- A subscription: join entity between a thread and a subscriber. -/
structure Subscription where
  threadId : Nat
  subscriberId : Nat
deriving DecidableEq

/-- A notification email, as observed through Django's test outbox. -/
structure Email where
  toUser : Nat
  subject : String
deriving DecidableEq

/-- The database state the forum tests observe: the three related tables,
the subscription join table, fresh-id counters and the mail outbox. -/
structure DB where
  forums : List Forum
  threads : List Thread
  posts : List Post
  subscriptions : List Subscription
  nextPostId : Nat
  nextThreadId : Nat
  outbox : List Email
deriving DecidableEq

/-- Largest element of a list of ids, `none` on the empty list.  Since post
ids increase with creation time, this picks the most recent post. -/
def maxId : List Nat → Option Nat
  | [] => none
  | x :: xs =>
    match maxId xs with
    | none => some x
    | some m => some (max x m)

/-- Does post `p` belong to thread `tid` and count toward aggregates
(moderation state `OK`)? -/
def isOkPostOf (tid : Nat) (p : Post) : Bool :=
  p.threadId == tid && p.moderation_state == ModState.OK

/-- Ids of the moderated (`OK`) posts of thread `tid`, in creation order. -/
def threadOkIds (posts : List Post) (tid : Nat) : List Nat :=
  (posts.filter (isOkPostOf tid)).map Post.id

/-- Does thread `tid` belong to forum `fid`? -/
def threadBelongsTo (fid : Nat) (threads : List Thread) (tid : Nat) : Bool :=
  threads.any (fun t => t.forumId == fid && t.id == tid)

/-- Does post `p` count toward forum `fid`'s aggregates: it lies in one of
the forum's threads and is moderated `OK`. -/
def isOkForumPost (threads : List Thread) (fid : Nat) (p : Post) : Bool :=
  threadBelongsTo fid threads p.threadId && p.moderation_state == ModState.OK

/-- Ids of the moderated (`OK`) posts of forum `fid`, across all its
threads, in creation order. -/
def forumOkIds (threads : List Thread) (posts : List Post) (fid : Nat) : List Nat :=
  (posts.filter (isOkForumPost threads fid)).map Post.id

/-- Row lookup by primary key, the model of `Thread.objects.get` /
`refresh_from_db` (which raises `Thread.DoesNotExist`, here `none`). -/
def findThread (db : DB) (tid : Nat) : Option Thread :=
  db.threads.find? (fun t => t.id == tid)

/-- Row lookup by primary key for forums. -/
def findForum (db : DB) (fid : Nat) : Option Forum :=
  db.forums.find? (fun f => f.id == fid)

/-- Row lookup by primary key for posts. -/
def findPost (db : DB) (pid : Nat) : Option Post :=
  db.posts.find? (fun p => p.id == pid)

/-- Number of subscriptions of `uid` to thread `tid`, the model of
`Subscription.objects.filter(thread=thread, subscriber=user).count()`. -/
def subCount (db : DB) (tid uid : Nat) : Nat :=
  (db.subscriptions.filter
    (fun s => s.threadId == tid && s.subscriberId == uid)).length

/-- Modelled from the spec: the post save/delete signal handlers in
`forum/models.py` (not in the sources) keep a thread's `num_posts` equal to
the number of its moderated (`OK`) posts and `last_post` pointing at its
most recent moderated post, or empty if none remain. -/
def refreshThread (posts : List Post) (t : Thread) : Thread :=
  { t with
    num_posts := (threadOkIds posts t.id).length
    last_post := maxId (threadOkIds posts t.id) }

/-- Apply the thread-refresh signal to the thread row `tid` of the database. -/
def refreshThreadIn (db : DB) (tid : Nat) : DB :=
  { db with
    threads := db.threads.map
      (fun t => if t.id == tid then refreshThread db.posts t else t) }

/-- Modelled from the spec: the signal handlers in `forum/models.py` (not in
the sources) keep a forum's `num_threads` equal to its number of threads,
`num_posts` equal to the number of moderated posts across all its threads,
and `last_post` pointing at the most recent moderated post forum-wide. -/
def refreshForum (threads : List Thread) (posts : List Post) (f : Forum) : Forum :=
  { f with
    num_threads := (threads.filter (fun t => t.forumId == f.id)).length
    num_posts := (forumOkIds threads posts f.id).length
    last_post := maxId (forumOkIds threads posts f.id) }

/-- Apply the forum-refresh signal to the forum row `fid` of the database. -/
def refreshForumIn (db : DB) (fid : Nat) : DB :=
  { db with
    forums := db.forums.map
      (fun f => if f.id == fid then refreshForum db.threads db.posts f else f) }

/-- Modelled from the spec: `Forum.objects.create` — a new forum starts with
zero threads, zero posts and no last post. -/
def createForum (db : DB) (fid : Nat) (nm slug descr : String) : DB :=
  { db with
    forums := db.forums ++
      [{ id := fid, name := nm, name_slug := slug, description := descr,
         num_threads := 0, num_posts := 0, last_post := none }] }

/-- Modelled from the spec: `Thread.objects.create` — a new thread starts
with no posts; the save signal updates the containing forum's aggregates
(in particular `num_threads`). -/
def createThread (db : DB) (fid : Nat) (title : String) (author : Nat) : DB :=
  let t : Thread :=
    { id := db.nextThreadId, forumId := fid, title := title, authorId := author,
      num_posts := 0, last_post := none, first_post := none }
  let db1 := { db with
    threads := db.threads ++ [t], nextThreadId := db.nextThreadId + 1 }
  refreshForumIn db1 fid

/-- Modelled from the spec: the default moderation state of a post
(`forum/models.py` is not in the sources; the tests note "The default
moderation state is OK"). -/
def defaultModerationState : ModState := ModState.OK

/-- Modelled from the spec: `Post.objects.create` with an explicit
moderation state — the post is stored with a fresh (strictly larger) id and
the save signal refreshes the containing thread's and forum's aggregates. -/
def createPost (db : DB) (tid author : Nat) (body : String) (ms : ModState) : DB :=
  let p : Post :=
    { id := db.nextPostId, threadId := tid, authorId := author,
      body := body, moderation_state := ms }
  let db1 := { db with posts := db.posts ++ [p], nextPostId := db.nextPostId + 1 }
  let db2 := refreshThreadIn db1 tid
  match findThread db tid with
  | some t => refreshForumIn db2 t.forumId
  | none => db2

/-- `Post.objects.create` without an explicit moderation state uses the
default. -/
def createPostDefault (db : DB) (tid author : Nat) (body : String) : DB :=
  createPost db tid author body defaultModerationState

/-- Modelled from the spec: assigning `post.moderation_state` and calling
`post.save()` — the save signal then refreshes the containing thread's and
forum's aggregates. -/
def setModerationState (db : DB) (pid : Nat) (ms : ModState) : DB :=
  match findPost db pid with
  | none => db
  | some p =>
    let db1 := { db with
      posts := db.posts.map
        (fun q => if q.id == pid then { q with moderation_state := ms } else q) }
    let db2 := refreshThreadIn db1 p.threadId
    match findThread db p.threadId with
    | some t => refreshForumIn db2 t.forumId
    | none => db2

/-- Modelled from the spec: `thread.delete()` — the thread row and (by the
cascading foreign key) all its posts are removed, and the delete signal
refreshes the containing forum's aggregates. -/
def deleteThread (db : DB) (tid : Nat) : DB :=
  match findThread db tid with
  | none => db
  | some t =>
    let db1 := { db with
      threads := db.threads.filter (fun u => u.id != tid),
      posts := db.posts.filter (fun p => p.threadId != tid) }
    refreshForumIn db1 t.forumId

/-- Modelled from the spec: `post.delete()` — the post row is removed; the
delete signal then deletes the thread entirely when no posts of the thread
remain at all, and otherwise refreshes the thread's and the forum's
aggregates. -/
def deletePost (db : DB) (pid : Nat) : DB :=
  match findPost db pid with
  | none => db
  | some p =>
    let db1 := { db with posts := db.posts.filter (fun q => q.id != pid) }
    if db1.posts.any (fun q => q.threadId == p.threadId) then
      let db2 := refreshThreadIn db1 p.threadId
      match findThread db p.threadId with
      | some t => refreshForumIn db2 t.forumId
      | none => db2
    else
      deleteThread db1 p.threadId

/-- Modelled from the spec: the subscribe view for a logged-in user creates
a subscription unless one already exists for the same (thread, subscriber)
pair. -/
def subscribe (db : DB) (tid uid : Nat) : DB :=
  if db.subscriptions.any
      (fun s => s.threadId == tid && s.subscriberId == uid) then db
  else { db with
    subscriptions := db.subscriptions ++
      [{ threadId := tid, subscriberId := uid }] }

/-- Modelled from the spec: the unsubscribe view removes the logged-in
user's subscription to the thread. -/
def unsubscribe (db : DB) (tid uid : Nat) : DB :=
  { db with
    subscriptions := db.subscriptions.filter
      (fun s => !(s.threadId == tid && s.subscriberId == uid)) }

/-- Modelled from the spec: the thread view in `forum/views.py` (not in the
sources) answers HTTP 404 when the thread does not exist or has no moderated
post — content awaiting review is not visible — and HTTP 200 otherwise. -/
def viewThreadStatus (db : DB) (tid : Nat) : Nat :=
  match findThread db tid with
  | none => 404
  | some t => if (threadOkIds db.posts t.id).isEmpty then 404 else 200

/-- Subject line of a topic reply notification email. -/
def replySubject (title : String) : String :=
  "[freesound] topic reply notification - " ++ title

/-- Modelled from the spec: the reply view creates a new (moderated) post in
the thread and sends a notification email to every subscriber of the thread
except the author of the new post. -/
def replyPost (db : DB) (tid author : Nat) (body : String) : DB :=
  match findThread db tid with
  | none => db
  | some t =>
    let emails := (db.subscriptions.filter
        (fun s => s.threadId == tid && s.subscriberId != author)).map
      (fun s => { toUser := s.subscriberId, subject := replySubject t.title })
    let db1 := createPost db tid author body ModState.OK
    { db1 with outbox := db1.outbox ++ emails }

/-- The tests' databases have pairwise distinct post ids. -/
def uniquePostIds (db : DB) : Prop :=
  db.posts.Pairwise (fun p q => p.id ≠ q.id)

/-- The tests' databases have pairwise distinct thread ids. -/
def uniqueThreadIds (db : DB) : Prop :=
  db.threads.Pairwise (fun s t => s.id ≠ t.id)

/-- The tests' databases have pairwise distinct forum ids. -/
def uniqueForumIds (db : DB) : Prop :=
  db.forums.Pairwise (fun f g => f.id ≠ g.id)

/-- A thread row whose denormalized aggregates agree with the post table:
its `num_posts` counts its moderated posts and `last_post` is its most
recent moderated post. -/
def threadConsistent (posts : List Post) (t : Thread) : Prop :=
  t.num_posts = (threadOkIds posts t.id).length ∧
  t.last_post = maxId (threadOkIds posts t.id)

/-- A forum row whose denormalized post aggregates agree with the tables. -/
def forumPostsConsistent (threads : List Thread) (posts : List Post) (f : Forum) : Prop :=
  f.num_posts = (forumOkIds threads posts f.id).length ∧
  f.last_post = maxId (forumOkIds threads posts f.id)

theorem maxId_eq_none_iff (l : List Nat) : maxId l = none ↔ l = [] := by
  cases l with
  | nil => simp [maxId]
  | cons x xs =>
    simp only [maxId]
    cases h : maxId xs <;> simp

theorem maxId_eq_some_iff (l : List Nat) (m : Nat) :
    maxId l = some m ↔ m ∈ l ∧ ∀ x ∈ l, x ≤ m := by
  induction l generalizing m with
  | nil => simp [maxId]
  | cons x xs ih =>
    cases h : maxId xs with
    | none =>
      have hxs : xs = [] := (maxId_eq_none_iff xs).mp h
      subst hxs
      simp only [maxId]
      constructor
      · intro he
        have : x = m := by injection he
        subst this
        simp
      · rintro ⟨hm, hub⟩
        simp only [List.mem_singleton] at hm
        subst hm
        rfl
    | some k =>
      obtain ⟨hkmem, hkub⟩ := (ih k).mp h
      simp only [maxId, h]
      constructor
      · intro he
        have hmax : max x k = m := by injection he
        constructor
        · rcases Nat.le_total x k with hxk | hkx
          · have : m = k := by omega
            subst this
            exact List.mem_cons_of_mem _ hkmem
          · have : m = x := by omega
            subst this
            exact List.mem_cons_self _ _
        · intro y hy
          rcases List.mem_cons.mp hy with rfl | hyx
          · omega
          · have := hkub y hyx
            omega
      · rintro ⟨hm, hub⟩
        have hxm : x ≤ m := hub x (List.mem_cons_self _ _)
        have hkm : k ≤ m := hub k (List.mem_cons_of_mem _ hkmem)
        have hmle : m ≤ max x k := by
          rcases List.mem_cons.mp hm with rfl | hmx
          · omega
          · have := hkub m hmx
            omega
        have : max x k = m := by omega
        rw [this]

theorem find?_key_unique {α : Type} (key : α → Nat) (l : List α) (a : α)
    (h : l.Pairwise (fun x y => key x ≠ key y)) (ha : a ∈ l) :
    l.find? (fun x => key x == key a) = some a := by
  induction l with
  | nil => cases ha
  | cons b bs ih =>
    rcases List.pairwise_cons.mp h with ⟨hb, hbs⟩
    rcases List.mem_cons.mp ha with rfl | hmem
    · simp [List.find?_cons_of_pos]
    · have hne : key b ≠ key a := hb a hmem
      rw [List.find?_cons_of_neg _ (by simpa using hne)]
      exact ih hbs hmem

theorem find?_map_key {α : Type} (key : α → Nat) (g : α → α)
    (hg : ∀ x, key (g x) = key x) (l : List α) (k : Nat) :
    (l.map g).find? (fun x => key x == k) =
      (l.find? (fun x => key x == k)).map g := by
  induction l with
  | nil => rfl
  | cons b bs ih =>
    by_cases hb : key b = k
    · rw [List.map_cons, List.find?_cons_of_pos _ (by simpa using (hg b).trans hb),
        List.find?_cons_of_pos _ (by simpa using hb)]
      rfl
    · rw [List.map_cons, List.find?_cons_of_neg _ (by simpa using (hg b).trans_ne hb),
        List.find?_cons_of_neg _ (by simpa using hb)]
      exact ih

theorem eq_of_key_unique {α : Type} (key : α → Nat) (l : List α)
    (h : l.Pairwise (fun x y => key x ≠ key y)) {a b : α}
    (ha : a ∈ l) (hb : b ∈ l) (hk : key a = key b) : a = b := by
  induction l with
  | nil => cases ha
  | cons c cs ih =>
    rcases List.pairwise_cons.mp h with ⟨hc, hcs⟩
    rcases List.mem_cons.mp ha with rfl | hma
    · rcases List.mem_cons.mp hb with rfl | hmb
      · rfl
      · exact absurd hk (hc b hmb)
    · rcases List.mem_cons.mp hb with rfl | hmb
      · exact absurd hk.symm (hc a hma)
      · exact ih hcs hma hmb

theorem refreshThread_id (posts : List Post) (t : Thread) :
    (refreshThread posts t).id = t.id := rfl

theorem refreshThread_forumId (posts : List Post) (t : Thread) :
    (refreshThread posts t).forumId = t.forumId := rfl

theorem threads_refreshForumIn (db : DB) (fid : Nat) :
    (refreshForumIn db fid).threads = db.threads := rfl

theorem posts_refreshForumIn (db : DB) (fid : Nat) :
    (refreshForumIn db fid).posts = db.posts := rfl

theorem posts_refreshThreadIn (db : DB) (tid : Nat) :
    (refreshThreadIn db tid).posts = db.posts := rfl

theorem forums_refreshThreadIn (db : DB) (tid : Nat) :
    (refreshThreadIn db tid).forums = db.forums := rfl

theorem findThread_refreshForumIn (db : DB) (fid k : Nat) :
    findThread (refreshForumIn db fid) k = findThread db k := rfl

theorem findForum_refreshThreadIn (db : DB) (tid k : Nat) :
    findForum (refreshThreadIn db tid) k = findForum db k := rfl

theorem findThread_refreshThreadIn (db : DB) (tid k : Nat) :
    findThread (refreshThreadIn db tid) k =
      (findThread db k).map
        (fun t => if t.id == tid then refreshThread db.posts t else t) := by
  unfold findThread refreshThreadIn
  exact find?_map_key Thread.id _
    (fun t => by by_cases h : t.id == tid <;> simp [h, refreshThread]) db.threads k

theorem findThread_refreshThreadIn_self (db : DB) (t : Thread)
    (h : findThread db t.id = some t) :
    findThread (refreshThreadIn db t.id) t.id = some (refreshThread db.posts t) := by
  rw [findThread_refreshThreadIn, h]
  simp

theorem findForum_refreshForumIn (db : DB) (fid k : Nat) :
    findForum (refreshForumIn db fid) k =
      (findForum db k).map
        (fun f => if f.id == fid then refreshForum db.threads db.posts f else f) := by
  unfold findForum refreshForumIn
  exact find?_map_key Forum.id _
    (fun f => by by_cases h : f.id == fid <;> simp [h, refreshForum]) db.forums k

theorem findForum_refreshForumIn_self (db : DB) (f : Forum)
    (h : findForum db f.id = some f) :
    findForum (refreshForumIn db f.id) f.id =
      some (refreshForum db.threads db.posts f) := by
  rw [findForum_refreshForumIn, h]
  simp

theorem findThread_of_mem (db : DB) (t : Thread)
    (huniq : uniqueThreadIds db) (hmem : t ∈ db.threads) :
    findThread db t.id = some t :=
  find?_key_unique Thread.id db.threads t huniq hmem

theorem findForum_of_mem (db : DB) (f : Forum)
    (huniq : uniqueForumIds db) (hmem : f ∈ db.forums) :
    findForum db f.id = some f :=
  find?_key_unique Forum.id db.forums f huniq hmem

theorem findPost_of_mem (db : DB) (p : Post)
    (huniq : uniquePostIds db) (hmem : p ∈ db.posts) :
    findPost db p.id = some p :=
  find?_key_unique Post.id db.posts p huniq hmem

theorem mem_threadOkIds {posts : List Post} {tid x : Nat} :
    x ∈ threadOkIds posts tid ↔
      ∃ p, p ∈ posts ∧ p.threadId = tid ∧
        p.moderation_state = ModState.OK ∧ p.id = x := by
  simp only [threadOkIds, List.mem_map, List.mem_filter, isOkPostOf,
    Bool.and_eq_true, beq_iff_eq]
  tauto

theorem mem_forumOkIds {threads : List Thread} {posts : List Post} {fid x : Nat} :
    x ∈ forumOkIds threads posts fid ↔
      ∃ p, p ∈ posts ∧
        (∃ t, t ∈ threads ∧ t.forumId = fid ∧ t.id = p.threadId) ∧
        p.moderation_state = ModState.OK ∧ p.id = x := by
  simp only [forumOkIds, List.mem_map, List.mem_filter, isOkForumPost,
    threadBelongsTo, List.any_eq_true, Bool.and_eq_true, beq_iff_eq]
  tauto

theorem threadOkIds_append (ps qs : List Post) (tid : Nat) :
    threadOkIds (ps ++ qs) tid = threadOkIds ps tid ++ threadOkIds qs tid := by
  simp [threadOkIds, List.filter_append]

theorem forumOkIds_append (threads : List Thread) (ps qs : List Post) (fid : Nat) :
    forumOkIds threads (ps ++ qs) fid =
      forumOkIds threads ps fid ++ forumOkIds threads qs fid := by
  simp [forumOkIds, List.filter_append]

theorem threadBelongsTo_map {g : Thread → Thread}
    (hg : ∀ t, (g t).forumId = t.forumId ∧ (g t).id = t.id)
    (fid : Nat) (threads : List Thread) (tid : Nat) :
    threadBelongsTo fid (threads.map g) tid = threadBelongsTo fid threads tid := by
  unfold threadBelongsTo
  rw [List.any_map]
  congr 1
  funext t
  rcases hg t with ⟨h1, h2⟩
  simp [Function.comp, h1, h2]

theorem forumOkIds_map_threads {g : Thread → Thread}
    (hg : ∀ t, (g t).forumId = t.forumId ∧ (g t).id = t.id)
    (threads : List Thread) (posts : List Post) (fid : Nat) :
    forumOkIds (threads.map g) posts fid = forumOkIds threads posts fid := by
  unfold forumOkIds
  have hpred : isOkForumPost (threads.map g) fid = isOkForumPost threads fid := by
    funext p
    unfold isOkForumPost
    rw [threadBelongsTo_map hg]
  rw [hpred]

theorem threadOkIds_filter_ne (posts : List Post) (pid tid : Nat) :
    threadOkIds (posts.filter (fun q => q.id != pid)) tid =
      (threadOkIds posts tid).filter (fun x => x != pid) := by
  unfold threadOkIds
  rw [List.filter_map, List.filter_filter, List.filter_filter]
  have hpred : (fun (a : Post) => isOkPostOf tid a && a.id != pid) =
      (fun (a : Post) => ((fun x => x != pid) ∘ Post.id) a && isOkPostOf tid a) := by
    funext q
    simp [Function.comp, Bool.and_comm]
  rw [hpred]

theorem forumOkIds_filter_ne (threads : List Thread) (posts : List Post)
    (pid fid : Nat) :
    forumOkIds threads (posts.filter (fun q => q.id != pid)) fid =
      (forumOkIds threads posts fid).filter (fun x => x != pid) := by
  unfold forumOkIds
  rw [List.filter_map, List.filter_filter, List.filter_filter]
  have hpred : (fun (a : Post) => isOkForumPost threads fid a && a.id != pid) =
      (fun (a : Post) => ((fun x => x != pid) ∘ Post.id) a && isOkForumPost threads fid a) := by
    funext q
    simp [Function.comp, Bool.and_comm]
  rw [hpred]

theorem threadOkIds_cons (b : Post) (ps : List Post) (tid : Nat) :
    threadOkIds (b :: ps) tid =
      if isOkPostOf tid b then b.id :: threadOkIds ps tid
      else threadOkIds ps tid := by
  simp only [threadOkIds, List.filter_cons]
  by_cases h : isOkPostOf tid b <;> simp [h]

theorem map_id_of_mem {α : Type} (l : List α) (g : α → α)
    (h : ∀ a ∈ l, g a = a) : l.map g = l := by
  induction l with
  | nil => rfl
  | cons b bs ih =>
    simp only [List.map_cons, h b (List.mem_cons_self _ _),
      ih (fun a ha => h a (List.mem_cons_of_mem _ ha))]

theorem threadOkIds_moderate_length (posts : List Post) (p : Post) (tid : Nat)
    (ht : p.threadId = tid) (hnm : p.moderation_state = ModState.NM) :
    posts.Pairwise (fun a b => a.id ≠ b.id) → p ∈ posts →
    (threadOkIds (posts.map
        (fun q => if q.id == p.id
          then { q with moderation_state := ModState.OK } else q)) tid).length =
      (threadOkIds posts tid).length + 1 := by
  induction posts with
  | nil =>
    intro _ hmem
    cases hmem
  | cons b bs ih =>
    intro huniq hmem
    rcases List.pairwise_cons.mp huniq with ⟨hb, hbs⟩
    rcases List.mem_cons.mp hmem with rfl | hmemtail
    · have htail : bs.map
          (fun q => if q.id == p.id
            then { q with moderation_state := ModState.OK } else q) = bs := by
        apply map_id_of_mem
        intro q hq
        have hne : q.id ≠ p.id := fun h => (hb q hq) h.symm
        simp [hne]
      simp only [List.map_cons, htail]
      rw [if_pos (show (p.id == p.id) = true by simp)]
      rw [threadOkIds_cons, threadOkIds_cons]
      simp [isOkPostOf, ht, hnm]
    · have hbid : b.id ≠ p.id := hb p hmemtail
      simp only [List.map_cons]
      rw [if_neg (by simpa using hbid)]
      rw [threadOkIds_cons, threadOkIds_cons]
      by_cases hok : isOkPostOf tid b
      · simp only [hok, if_true, List.length_cons]
        have := ih hbs hmemtail
        omega
      · simp only [hok, if_false]
        exact ih hbs hmemtail

theorem threadOkIds_moderate_mem (posts : List Post) (p : Post) (tid x : Nat)
    (huniq : posts.Pairwise (fun a b => a.id ≠ b.id))
    (hmem : p ∈ posts) (ht : p.threadId = tid)
    (hnm : p.moderation_state = ModState.NM) :
    x ∈ threadOkIds (posts.map
        (fun q => if q.id == p.id
          then { q with moderation_state := ModState.OK } else q)) tid ↔
      x = p.id ∨ x ∈ threadOkIds posts tid := by
  rw [mem_threadOkIds, mem_threadOkIds]
  constructor
  · rintro ⟨r, hr, hrt, hrok, hrid⟩
    rcases List.mem_map.mp hr with ⟨q, hq, rfl⟩
    by_cases hid : q.id = p.id
    · left
      rw [if_pos (by simpa using hid)] at hrid
      simp only at hrid
      omega
    · rw [if_neg (by simpa using hid)] at hrt hrok hrid
      exact Or.inr ⟨q, hq, hrt, hrok, hrid⟩
  · rintro (rfl | ⟨q, hq, hqt, hqok, hqid⟩)
    · refine ⟨{ p with moderation_state := ModState.OK },
        List.mem_map.mpr ⟨p, hmem, ?_⟩, ht, rfl, rfl⟩
      rw [if_pos (by simp)]
    · have hqid_ne : q.id ≠ p.id := by
        intro h
        have : q = p := eq_of_key_unique Post.id posts huniq hq hmem h
        rw [this, hnm] at hqok
        cases hqok
      refine ⟨q, List.mem_map.mpr ⟨q, hq, ?_⟩, hqt, hqok, hqid⟩
      rw [if_neg (by simpa using hqid_ne)]

theorem deletePost_eq_surviving (db : DB) (p : Post) (t : Thread)
    (hfp : findPost db p.id = some p)
    (hany : ((db.posts.filter (fun q => q.id != p.id)).any
      (fun q => q.threadId == p.threadId)) = true)
    (hft : findThread db p.threadId = some t) :
    deletePost db p.id =
      refreshForumIn
        (refreshThreadIn
          { db with posts := db.posts.filter (fun q => q.id != p.id) }
          p.threadId)
        t.forumId := by
  unfold deletePost
  rw [hfp]
  dsimp only
  rw [hany, if_pos rfl]
  rw [hft]

theorem deletePost_eq_last (db : DB) (p : Post)
    (hfp : findPost db p.id = some p)
    (hany : ((db.posts.filter (fun q => q.id != p.id)).any
      (fun q => q.threadId == p.threadId)) = false) :
    deletePost db p.id =
      deleteThread
        { db with posts := db.posts.filter (fun q => q.id != p.id) }
        p.threadId := by
  unfold deletePost
  rw [hfp]
  dsimp only
  rw [hany, if_neg Bool.false_ne_true]

theorem deleteThread_eq_found (db : DB) (t : Thread)
    (hft : findThread db t.id = some t) :
    deleteThread db t.id =
      refreshForumIn
        { db with
          threads := db.threads.filter (fun u => u.id != t.id),
          posts := db.posts.filter (fun p => p.threadId != t.id) }
        t.forumId := by
  unfold deleteThread
  rw [hft]

theorem createPost_eq_found (db : DB) (t : Thread) (author : Nat)
    (body : String) (ms : ModState)
    (hft : findThread db t.id = some t) :
    createPost db t.id author body ms =
      refreshForumIn
        (refreshThreadIn
          { db with
            posts := db.posts ++
              [{ id := db.nextPostId, threadId := t.id, authorId := author,
                 body := body, moderation_state := ms }],
            nextPostId := db.nextPostId + 1 }
          t.id)
        t.forumId := by
  unfold createPost
  rw [hft]

theorem setModerationState_eq_found (db : DB) (p : Post) (t : Thread)
    (ms : ModState)
    (hfp : findPost db p.id = some p)
    (hft : findThread db p.threadId = some t) :
    setModerationState db p.id ms =
      refreshForumIn
        (refreshThreadIn
          { db with
            posts := db.posts.map
              (fun q => if q.id == p.id
                then { q with moderation_state := ms } else q) }
          p.threadId)
        t.forumId := by
  unfold setModerationState
  rw [hfp]
  dsimp only
  rw [hft]

theorem replyPost_eq_found (db : DB) (t : Thread) (author : Nat)
    (body : String)
    (hft : findThread db t.id = some t) :
    replyPost db t.id author body =
      { createPost db t.id author body ModState.OK with
        outbox := (createPost db t.id author body ModState.OK).outbox ++
          ((db.subscriptions.filter
              (fun s => s.threadId == t.id && s.subscriberId != author)).map
            (fun s => { toUser := s.subscriberId,
                        subject := replySubject t.title })) } := by
  unfold replyPost
  rw [hft]

/-- C1: deleting a thread's most recent moderated (`OK`) post reassigns the
thread's `last_post` to the next most recent moderated post of that thread
(the most recent moderated post among the remaining ones); if no moderated
posts remain but the thread still exists, `last_post` becomes `none` and
`num_posts` becomes `0`. -/
theorem c1_delete_most_recent_moderated (db : DB) (t : Thread) (p : Post)
    (hpu : uniquePostIds db) (htu : uniqueThreadIds db)
    (htm : t ∈ db.threads) (hpm : p ∈ db.posts)
    (hpt : p.threadId = t.id)
    (hlast : maxId (threadOkIds db.posts t.id) = some p.id)
    (hsurv : ∃ q, q ∈ db.posts ∧ q.id ≠ p.id ∧ q.threadId = t.id) :
    ∃ t', findThread (deletePost db p.id) t.id = some t' ∧
      t'.last_post =
        maxId (threadOkIds (db.posts.filter (fun q => q.id != p.id)) t.id) ∧
      t'.num_posts =
        (threadOkIds (db.posts.filter (fun q => q.id != p.id)) t.id).length ∧
      (threadOkIds (db.posts.filter (fun q => q.id != p.id)) t.id = [] →
        t'.last_post = none ∧ t'.num_posts = 0) := by
  obtain ⟨q, hq, hqne, hqt⟩ := hsurv
  have hfp : findPost db p.id = some p := findPost_of_mem db p hpu hpm
  have hft : findThread db p.threadId = some t := by
    rw [hpt]
    exact findThread_of_mem db t htu htm
  have hany : ((db.posts.filter (fun r => r.id != p.id)).any
      (fun r => r.threadId == p.threadId)) = true := by
    apply List.any_eq_true.mpr
    exact ⟨q, List.mem_filter.mpr ⟨hq, by simpa using hqne⟩, by simp [hqt, hpt]⟩
  rw [deletePost_eq_surviving db p t hfp hany hft, findThread_refreshForumIn, hpt]
  have hft1 : findThread
      { db with posts := db.posts.filter (fun q => q.id != p.id) } t.id =
        some t := findThread_of_mem _ t htu htm
  rw [findThread_refreshThreadIn_self _ t hft1]
  refine ⟨_, rfl, rfl, rfl, ?_⟩
  intro hempty
  constructor
  · show maxId (threadOkIds (db.posts.filter (fun q => q.id != p.id)) t.id) = none
    rw [hempty]
    rfl
  · show (threadOkIds (db.posts.filter (fun q => q.id != p.id)) t.id).length = 0
    rw [hempty]
    rfl

/-- Post 1 of the `test_remove_moderated_post` scenario. -/
def c1post1 : Post :=
  { id := 1, threadId := 0, authorId := 0, body := "", moderation_state := ModState.OK }

/-- Post 2 of the `test_remove_moderated_post` scenario. -/
def c1post2 : Post :=
  { id := 2, threadId := 0, authorId := 0, body := "", moderation_state := ModState.OK }

/-- Post 3 of the `test_remove_moderated_post` scenario, the most recent one. -/
def c1post3 : Post :=
  { id := 3, threadId := 0, authorId := 0, body := "", moderation_state := ModState.OK }

/-- The thread of the `test_remove_moderated_post` scenario, with consistent
aggregates over its three moderated posts. -/
def c1thread : Thread :=
  { id := 0, forumId := 0, title := "testThread", authorId := 0,
    num_posts := 3, last_post := some 3, first_post := none }

/-- The database of the `test_remove_moderated_post` scenario. -/
def c1db : DB :=
  { forums := [{ id := 0, name := "testForum", name_slug := "test_forum",
                 description := "test", num_threads := 1, num_posts := 3,
                 last_post := some 3 }],
    threads := [c1thread],
    posts := [c1post1, c1post2, c1post3],
    subscriptions := [], nextPostId := 4, nextThreadId := 1, outbox := [] }

/-- Witness for C1 at the `test_remove_moderated_post` scenario: deleting
post 3 leaves the thread with `last_post` pointing at post 2. -/
theorem c1_witness :
    (maxId (threadOkIds c1db.posts 0) = some 3 ∧
      maxId (threadOkIds (c1db.posts.filter (fun q => q.id != 3)) 0) = some 2) ∧
    (∃ t', findThread (deletePost c1db 3) 0 = some t' ∧
      t'.last_post =
        maxId (threadOkIds (c1db.posts.filter (fun q => q.id != 3)) 0) ∧
      t'.num_posts =
        (threadOkIds (c1db.posts.filter (fun q => q.id != 3)) 0).length ∧
      (threadOkIds (c1db.posts.filter (fun q => q.id != 3)) 0 = [] →
        t'.last_post = none ∧ t'.num_posts = 0)) :=
  ⟨⟨by decide, by decide⟩,
    c1_delete_most_recent_moderated c1db c1thread c1post3
      (by unfold uniquePostIds; decide) (by unfold uniqueThreadIds; decide)
      (by decide) (by decide) rfl (by decide)
      ⟨c1post2, by decide, by decide, rfl⟩⟩

/-- C2: deleting a thread's sole remaining moderated post deletes the thread
itself when the thread has no unmoderated posts (looking the thread up
afterwards fails, the model of `Thread.DoesNotExist`); if at least one
unmoderated post remains in the thread, the thread is not deleted. -/
theorem c2_delete_sole_moderated (db : DB) (t : Thread) (p : Post)
    (hpu : uniquePostIds db) (htu : uniqueThreadIds db)
    (htm : t ∈ db.threads) (hpm : p ∈ db.posts)
    (hpt : p.threadId = t.id)
    (hsole : threadOkIds db.posts t.id = [p.id]) :
    ((∀ q, q ∈ db.posts → q.threadId = t.id → q.id = p.id) →
      findThread (deletePost db p.id) t.id = none) ∧
    ((∃ q, q ∈ db.posts ∧ q.id ≠ p.id ∧ q.threadId = t.id) →
      ∃ t', findThread (deletePost db p.id) t.id = some t') := by
  have hfp : findPost db p.id = some p := findPost_of_mem db p hpu hpm
  have hft : findThread db p.threadId = some t := by
    rw [hpt]
    exact findThread_of_mem db t htu htm
  constructor
  · intro honly
    have hany : ((db.posts.filter (fun r => r.id != p.id)).any
        (fun r => r.threadId == p.threadId)) = false := by
      apply List.any_eq_false.mpr
      intro r hr
      rcases List.mem_filter.mp hr with ⟨hrm, hrne⟩
      intro hcon
      have hrt : r.threadId = t.id := by
        have : r.threadId = p.threadId := by simpa using hcon
        rw [this, hpt]
      have : r.id = p.id := honly r hrm hrt
      simp [this] at hrne
    rw [deletePost_eq_last db p hfp hany]
    have hft1 : findThread
        { db with posts := db.posts.filter (fun q => q.id != p.id) }
        t.id = some t := findThread_of_mem _ t htu htm
    rw [hpt, deleteThread_eq_found _ t hft1, findThread_refreshForumIn]
    apply List.find?_eq_none.mpr
    intro u hu
    rcases List.mem_filter.mp hu with ⟨_, hune⟩
    simpa using hune
  · rintro ⟨q, hq, hqne, hqt⟩
    have hany : ((db.posts.filter (fun r => r.id != p.id)).any
        (fun r => r.threadId == p.threadId)) = true := by
      apply List.any_eq_true.mpr
      exact ⟨q, List.mem_filter.mpr ⟨hq, by simpa using hqne⟩, by simp [hqt, hpt]⟩
    rw [deletePost_eq_surviving db p t hfp hany hft, findThread_refreshForumIn, hpt]
    have hft1 : findThread
        { db with posts := db.posts.filter (fun q => q.id != p.id) } t.id =
          some t := findThread_of_mem _ t htu htm
    rw [findThread_refreshThreadIn_self _ t hft1]
    exact ⟨_, rfl⟩

/-- The moderated post of the `test_remove_last_post_moderated` /
`test_remove_last_post_unmoderated` scenarios. -/
def c2modpost : Post :=
  { id := 1, threadId := 0, authorId := 0, body := "", moderation_state := ModState.OK }

/-- The unmoderated post of the `test_remove_last_post_unmoderated`
scenario. -/
def c2unmodpost : Post :=
  { id := 2, threadId := 0, authorId := 0, body := "", moderation_state := ModState.NM }

/-- The thread of the C2 scenarios. -/
def c2thread : Thread :=
  { id := 0, forumId := 0, title := "testThread", authorId := 0,
    num_posts := 1, last_post := some 1, first_post := none }

/-- Database of the `test_remove_last_post_moderated` scenario: one thread,
one moderated post. -/
def c2dbMod : DB :=
  { forums := [{ id := 0, name := "testForum", name_slug := "test_forum",
                 description := "test", num_threads := 1, num_posts := 1,
                 last_post := some 1 }],
    threads := [c2thread],
    posts := [c2modpost],
    subscriptions := [], nextPostId := 3, nextThreadId := 1, outbox := [] }

/-- Database of the `test_remove_last_post_unmoderated` scenario: one
thread, one moderated and one unmoderated post. -/
def c2dbUnmod : DB :=
  { forums := [{ id := 0, name := "testForum", name_slug := "test_forum",
                 description := "test", num_threads := 1, num_posts := 1,
                 last_post := some 1 }],
    threads := [c2thread],
    posts := [c2modpost, c2unmodpost],
    subscriptions := [], nextPostId := 3, nextThreadId := 1, outbox := [] }

/-- Witness for C2: in the all-moderated scenario the thread disappears; in
the scenario retaining an unmoderated post it survives. -/
theorem c2_witness :
    findThread (deletePost c2dbMod 1) 0 = none ∧
    (∃ t', findThread (deletePost c2dbUnmod 1) 0 = some t') :=
  ⟨(c2_delete_sole_moderated c2dbMod c2thread c2modpost
      (by unfold uniquePostIds; decide) (by unfold uniqueThreadIds; decide)
      (by decide) (by decide) rfl (by decide)).1
    (by decide),
   (c2_delete_sole_moderated c2dbUnmod c2thread c2modpost
      (by unfold uniquePostIds; decide) (by unfold uniqueThreadIds; decide)
      (by decide) (by decide) rfl (by decide)).2
    ⟨c2unmodpost, by decide, by decide, rfl⟩⟩

theorem refreshForum_map_threads {g : Thread → Thread}
    (hg : ∀ t, (g t).forumId = t.forumId ∧ (g t).id = t.id)
    (threads : List Thread) (posts : List Post) (f : Forum) :
    refreshForum (threads.map g) posts f = refreshForum threads posts f := by
  unfold refreshForum
  rw [forumOkIds_map_threads hg]
  have hpred : ((fun t : Thread => t.forumId == f.id) ∘ g) =
      (fun t : Thread => t.forumId == f.id) := by
    funext u
    simp [Function.comp, (hg u).1]
  rw [List.filter_map, hpred, List.length_map]

theorem refreshForum_refreshThreadIn (db : DB) (tid : Nat) (f : Forum) :
    refreshForum (refreshThreadIn db tid).threads (refreshThreadIn db tid).posts f =
      refreshForum db.threads db.posts f := by
  have hth : (refreshThreadIn db tid).threads = db.threads.map
      (fun u => if u.id == tid then refreshThread db.posts u else u) := rfl
  have hps : (refreshThreadIn db tid).posts = db.posts := rfl
  rw [hth, hps, refreshForum_map_threads]
  intro u
  by_cases h : u.id == tid <;> simp [h, refreshThread]

theorem createPost_lookups (db : DB) (t : Thread) (f : Forum)
    (author : Nat) (body : String) (ms : ModState)
    (htu : uniqueThreadIds db) (hfu : uniqueForumIds db)
    (htm : t ∈ db.threads) (hfm : f ∈ db.forums) (htf : t.forumId = f.id) :
    findThread (createPost db t.id author body ms) t.id =
      some (refreshThread (db.posts ++
        [{ id := db.nextPostId, threadId := t.id, authorId := author,
           body := body, moderation_state := ms }]) t) ∧
    findForum (createPost db t.id author body ms) f.id =
      some (refreshForum db.threads (db.posts ++
        [{ id := db.nextPostId, threadId := t.id, authorId := author,
           body := body, moderation_state := ms }]) f) := by
  have hft : findThread db t.id = some t := findThread_of_mem db t htu htm
  rw [createPost_eq_found db t author body ms hft]
  constructor
  · rw [findThread_refreshForumIn]
    exact findThread_refreshThreadIn_self _ t (findThread_of_mem _ t htu htm)
  · have hff1 : findForum
        (refreshThreadIn
          { db with
            posts := db.posts ++
              [{ id := db.nextPostId, threadId := t.id, authorId := author,
                 body := body, moderation_state := ms }],
            nextPostId := db.nextPostId + 1 }
          t.id) f.id = some f :=
      findForum_of_mem _ f hfu hfm
    rw [htf, findForum_refreshForumIn_self _ f hff1, refreshForum_refreshThreadIn]

theorem deletePost_thread_lookup_surviving (db : DB) (t : Thread) (p : Post)
    (hpu : uniquePostIds db) (htu : uniqueThreadIds db)
    (htm : t ∈ db.threads) (hpm : p ∈ db.posts) (hpt : p.threadId = t.id)
    (hsurv : ∃ q, q ∈ db.posts ∧ q.id ≠ p.id ∧ q.threadId = t.id) :
    findThread (deletePost db p.id) t.id =
      some (refreshThread (db.posts.filter (fun q => q.id != p.id)) t) := by
  obtain ⟨q, hq, hqne, hqt⟩ := hsurv
  have hfp : findPost db p.id = some p := findPost_of_mem db p hpu hpm
  have hft : findThread db p.threadId = some t := by
    rw [hpt]
    exact findThread_of_mem db t htu htm
  have hany : ((db.posts.filter (fun r => r.id != p.id)).any
      (fun r => r.threadId == p.threadId)) = true := by
    apply List.any_eq_true.mpr
    exact ⟨q, List.mem_filter.mpr ⟨hq, by simpa using hqne⟩, by simp [hqt, hpt]⟩
  rw [deletePost_eq_surviving db p t hfp hany hft, findThread_refreshForumIn, hpt]
  exact findThread_refreshThreadIn_self _ t (findThread_of_mem _ t htu htm)

theorem deletePost_forum_lookup_surviving (db : DB) (t : Thread) (p : Post)
    (f : Forum)
    (hpu : uniquePostIds db) (htu : uniqueThreadIds db)
    (hfu : uniqueForumIds db)
    (htm : t ∈ db.threads) (hpm : p ∈ db.posts) (hfm : f ∈ db.forums)
    (hpt : p.threadId = t.id) (htf : t.forumId = f.id)
    (hsurv : ∃ q, q ∈ db.posts ∧ q.id ≠ p.id ∧ q.threadId = t.id) :
    findForum (deletePost db p.id) f.id =
      some (refreshForum db.threads
        (db.posts.filter (fun q => q.id != p.id)) f) := by
  obtain ⟨q, hq, hqne, hqt⟩ := hsurv
  have hfp : findPost db p.id = some p := findPost_of_mem db p hpu hpm
  have hft : findThread db p.threadId = some t := by
    rw [hpt]
    exact findThread_of_mem db t htu htm
  have hany : ((db.posts.filter (fun r => r.id != p.id)).any
      (fun r => r.threadId == p.threadId)) = true := by
    apply List.any_eq_true.mpr
    exact ⟨q, List.mem_filter.mpr ⟨hq, by simpa using hqne⟩, by simp [hqt, hpt]⟩
  have hff1 : findForum
      (refreshThreadIn
        { db with posts := db.posts.filter (fun q => q.id != p.id) }
        p.threadId) f.id = some f :=
    findForum_of_mem _ f hfu hfm
  rw [deletePost_eq_surviving db p t hfp hany hft, htf,
    findForum_refreshForumIn_self _ f hff1, refreshForum_refreshThreadIn]

/-- C3: only `OK` posts count toward the aggregates — creating a post with
moderation state `NM` leaves the thread's `num_posts`, the forum's
`num_posts` and both `last_post` references unchanged, and deleting an `NM`
post (while the thread keeps another post) leaves the thread's `num_posts`
and `last_post` unchanged. -/
theorem c3_unmoderated_posts_do_not_count (db : DB) (t : Thread) (f : Forum)
    (htu : uniqueThreadIds db) (hfu : uniqueForumIds db)
    (htm : t ∈ db.threads) (hfm : f ∈ db.forums) (htf : t.forumId = f.id)
    (htc : threadConsistent db.posts t)
    (hfc : forumPostsConsistent db.threads db.posts f) :
    (∀ author body, ∃ t' f',
      findThread (createPost db t.id author body ModState.NM) t.id = some t' ∧
      findForum (createPost db t.id author body ModState.NM) f.id = some f' ∧
      t'.num_posts = t.num_posts ∧ t'.last_post = t.last_post ∧
      f'.num_posts = f.num_posts ∧ f'.last_post = f.last_post) ∧
    (∀ p, p ∈ db.posts → p.threadId = t.id →
      p.moderation_state = ModState.NM → uniquePostIds db →
      (∃ q, q ∈ db.posts ∧ q.id ≠ p.id ∧ q.threadId = t.id) →
      ∃ t', findThread (deletePost db p.id) t.id = some t' ∧
        t'.num_posts = t.num_posts ∧ t'.last_post = t.last_post) := by
  obtain ⟨htc1, htc2⟩ := htc
  obtain ⟨hfc1, hfc2⟩ := hfc
  constructor
  · intro author body
    obtain ⟨hT, hF⟩ :=
      createPost_lookups db t f author body ModState.NM htu hfu htm hfm htf
    have hsingT : threadOkIds
        [{ id := db.nextPostId, threadId := t.id, authorId := author,
           body := body, moderation_state := ModState.NM }] t.id = [] := by
      simp [threadOkIds, isOkPostOf]
    have hsingF : forumOkIds db.threads
        [{ id := db.nextPostId, threadId := t.id, authorId := author,
           body := body, moderation_state := ModState.NM }] f.id = [] := by
      simp [forumOkIds, isOkForumPost]
    refine ⟨_, _, hT, hF, ?_, ?_, ?_, ?_⟩
    · simp only [refreshThread]
      rw [threadOkIds_append, hsingT, List.append_nil]
      exact htc1.symm
    · simp only [refreshThread]
      rw [threadOkIds_append, hsingT, List.append_nil]
      exact htc2.symm
    · simp only [refreshForum]
      rw [forumOkIds_append, hsingF, List.append_nil]
      exact hfc1.symm
    · simp only [refreshForum]
      rw [forumOkIds_append, hsingF, List.append_nil]
      exact hfc2.symm
  · rintro p hpm hpt hnm hpu hsurv
    have hT := deletePost_thread_lookup_surviving db t p hpu htu htm hpm hpt hsurv
    have hids : threadOkIds (db.posts.filter (fun q => q.id != p.id)) t.id =
        threadOkIds db.posts t.id := by
      rw [threadOkIds_filter_ne]
      apply List.filter_eq_self.mpr
      intro x hx
      rcases mem_threadOkIds.mp hx with ⟨r, hr, hrt, hrok, hrid⟩
      have hrne : r ≠ p := by
        intro hcon
        rw [hcon, hnm] at hrok
        cases hrok
      have hidne : r.id ≠ p.id := by
        intro hcon
        exact hrne (eq_of_key_unique Post.id db.posts hpu hr hpm hcon)
      subst hrid
      simpa using hidne
    refine ⟨_, hT, ?_, ?_⟩
    · simp only [refreshThread]
      rw [hids]
      exact htc1.symm
    · simp only [refreshThread]
      rw [hids]
      exact htc2.symm

/-- Empty thread of the `test_add_unmoderated_post` scenario. -/
def c3thread0 : Thread :=
  { id := 0, forumId := 0, title := "testThread", authorId := 0,
    num_posts := 0, last_post := none, first_post := none }

/-- Forum of the `test_add_unmoderated_post` scenario. -/
def c3forum0 : Forum :=
  { id := 0, name := "testForum", name_slug := "test_forum",
    description := "test", num_threads := 1, num_posts := 0, last_post := none }

/-- Database of the `test_add_unmoderated_post` scenario: an empty thread. -/
def c3db0 : DB :=
  { forums := [c3forum0], threads := [c3thread0], posts := [],
    subscriptions := [], nextPostId := 1, nextThreadId := 1, outbox := [] }

/-- Moderated post of the `test_remove_unmoderated_post` scenario. -/
def c3post1 : Post :=
  { id := 1, threadId := 0, authorId := 0, body := "", moderation_state := ModState.OK }

/-- Unmoderated post of the `test_remove_unmoderated_post` scenario. -/
def c3post2 : Post :=
  { id := 2, threadId := 0, authorId := 0, body := "", moderation_state := ModState.NM }

/-- Thread of the `test_remove_unmoderated_post` scenario. -/
def c3thread1 : Thread :=
  { id := 0, forumId := 0, title := "testThread", authorId := 0,
    num_posts := 1, last_post := some 1, first_post := none }

/-- Forum of the `test_remove_unmoderated_post` scenario. -/
def c3forum1 : Forum :=
  { id := 0, name := "testForum", name_slug := "test_forum",
    description := "test", num_threads := 1, num_posts := 1, last_post := some 1 }

/-- Database of the `test_remove_unmoderated_post` scenario. -/
def c3db1 : DB :=
  { forums := [c3forum1], threads := [c3thread1], posts := [c3post1, c3post2],
    subscriptions := [], nextPostId := 3, nextThreadId := 1, outbox := [] }

/-- Witness for C3: adding an `NM` post to an empty thread leaves all
aggregates at zero, and deleting the `NM` post of the two-post scenario
leaves the thread's aggregates pointing at the moderated post. -/
theorem c3_witness :
    (∃ t' f',
      findThread (createPost c3db0 0 0 "" ModState.NM) 0 = some t' ∧
      findForum (createPost c3db0 0 0 "" ModState.NM) 0 = some f' ∧
      t'.num_posts = 0 ∧ t'.last_post = none ∧
      f'.num_posts = 0 ∧ f'.last_post = none) ∧
    (∃ t', findThread (deletePost c3db1 2) 0 = some t' ∧
      t'.num_posts = 1 ∧ t'.last_post = some 1) :=
  ⟨(c3_unmoderated_posts_do_not_count c3db0 c3thread0 c3forum0
      (by unfold uniqueThreadIds; decide) (by unfold uniqueForumIds; decide)
      (by decide) (by decide) rfl
      (by unfold threadConsistent; decide)
      (by unfold forumPostsConsistent; decide)).1 0 "",
   (c3_unmoderated_posts_do_not_count c3db1 c3thread1 c3forum1
      (by unfold uniqueThreadIds; decide) (by unfold uniqueForumIds; decide)
      (by decide) (by decide) rfl
      (by unfold threadConsistent; decide)
      (by unfold forumPostsConsistent; decide)).2 c3post2
      (by decide) rfl rfl (by unfold uniquePostIds; decide)
      ⟨c3post1, by decide, by decide, rfl⟩⟩

theorem setModerationState_thread_lookup (db : DB) (t : Thread) (p : Post)
    (ms : ModState)
    (hpu : uniquePostIds db) (htu : uniqueThreadIds db)
    (htm : t ∈ db.threads) (hpm : p ∈ db.posts) (hpt : p.threadId = t.id) :
    findThread (setModerationState db p.id ms) t.id =
      some (refreshThread (db.posts.map
        (fun q => if q.id == p.id
          then { q with moderation_state := ms } else q)) t) := by
  have hfp : findPost db p.id = some p := findPost_of_mem db p hpu hpm
  have hft : findThread db p.threadId = some t := by
    rw [hpt]
    exact findThread_of_mem db t htu htm
  rw [setModerationState_eq_found db p t ms hfp hft,
    findThread_refreshForumIn, hpt]
  exact findThread_refreshThreadIn_self _ t (findThread_of_mem _ t htu htm)

/-- C4: changing a post's moderation state from `NM` to `OK` and saving it
increments the containing thread's `num_posts` by one, and `last_post` then
points to the thread's most recent moderated post — in particular, if the
moderated post is older than the current `last_post`, `last_post` does not
change. -/
theorem c4_moderating_post (db : DB) (t : Thread) (p : Post)
    (hpu : uniquePostIds db) (htu : uniqueThreadIds db)
    (htm : t ∈ db.threads) (hpm : p ∈ db.posts) (hpt : p.threadId = t.id)
    (hnm : p.moderation_state = ModState.NM)
    (htc : threadConsistent db.posts t) :
    ∃ t', findThread (setModerationState db p.id ModState.OK) t.id = some t' ∧
      t'.num_posts = t.num_posts + 1 ∧
      t'.last_post = maxId (threadOkIds (db.posts.map
        (fun q => if q.id == p.id
          then { q with moderation_state := ModState.OK } else q)) t.id) ∧
      (∀ m, t.last_post = some m → p.id < m → t'.last_post = t.last_post) := by
  obtain ⟨htc1, htc2⟩ := htc
  have hT := setModerationState_thread_lookup db t p ModState.OK hpu htu htm hpm hpt
  refine ⟨_, hT, ?_, rfl, ?_⟩
  · simp only [refreshThread]
    rw [threadOkIds_moderate_length db.posts p t.id hpt hnm hpu hpm, htc1]
  · intro m hm hlt
    simp only [refreshThread]
    rw [hm]
    apply (maxId_eq_some_iff _ m).mpr
    have hold : maxId (threadOkIds db.posts t.id) = some m := by
      rw [← htc2, hm]
    obtain ⟨hmm, hub⟩ := (maxId_eq_some_iff _ m).mp hold
    constructor
    · exact (threadOkIds_moderate_mem db.posts p t.id m hpu hpm hpt hnm).mpr
        (Or.inr hmm)
    · intro x hx
      rcases (threadOkIds_moderate_mem db.posts p t.id x hpu hpm hpt hnm).mp hx
        with rfl | hxold
      · omega
      · exact hub x hxold

/-- The older, initially unmoderated post of the
`test_moderate_post_not_lastest` scenario. -/
def c4post1 : Post :=
  { id := 1, threadId := 0, authorId := 0, body := "", moderation_state := ModState.NM }

/-- The newer, moderated post of the `test_moderate_post_not_lastest`
scenario. -/
def c4post2 : Post :=
  { id := 2, threadId := 0, authorId := 0, body := "", moderation_state := ModState.OK }

/-- Thread of the `test_moderate_post_not_lastest` scenario. -/
def c4thread : Thread :=
  { id := 0, forumId := 0, title := "testThread", authorId := 0,
    num_posts := 1, last_post := some 2, first_post := none }

/-- Database of the `test_moderate_post_not_lastest` scenario. -/
def c4db : DB :=
  { forums := [{ id := 0, name := "testForum", name_slug := "test_forum",
                 description := "test", num_threads := 1, num_posts := 1,
                 last_post := some 2 }],
    threads := [c4thread],
    posts := [c4post1, c4post2],
    subscriptions := [], nextPostId := 3, nextThreadId := 1, outbox := [] }

/-- Witness for C4 at the `test_moderate_post_not_lastest` scenario:
moderating the older post 1 raises `num_posts` to 2 and keeps `last_post` at
post 2. -/
theorem c4_witness :
    ∃ t', findThread (setModerationState c4db 1 ModState.OK) 0 = some t' ∧
      t'.num_posts = 2 ∧ t'.last_post = some 2 := by
  obtain ⟨t', hT, hnum, _, hpres⟩ :=
    c4_moderating_post c4db c4thread c4post1
      (by unfold uniquePostIds; decide) (by unfold uniqueThreadIds; decide)
      (by decide) (by decide) rfl rfl
      (by unfold threadConsistent; decide)
  exact ⟨t', hT, hnum, hpres 2 rfl (by decide)⟩

/-- C5: a forum's `last_post` ranges over all its threads while a thread's
`last_post` ranges only over its own posts — deleting the most recent post
of one thread reassigns that thread's `last_post` (to the most recent
remaining moderated post of the thread) but leaves the forum's `last_post`
unchanged when the forum-wide most recent moderated post belongs to a
different thread. -/
theorem c5_forum_last_post_frame (db : DB) (t : Thread) (p : Post) (f : Forum)
    (q : Post)
    (hpu : uniquePostIds db) (htu : uniqueThreadIds db)
    (hfu : uniqueForumIds db)
    (htm : t ∈ db.threads) (hpm : p ∈ db.posts) (hfm : f ∈ db.forums)
    (hpt : p.threadId = t.id) (htf : t.forumId = f.id)
    (hfc : forumPostsConsistent db.threads db.posts f)
    (hq : q ∈ db.posts) (hqthread : q.threadId ≠ t.id)
    (hqlast : f.last_post = some q.id)
    (hsurv : ∃ r, r ∈ db.posts ∧ r.id ≠ p.id ∧ r.threadId = t.id) :
    ∃ t' f', findThread (deletePost db p.id) t.id = some t' ∧
      findForum (deletePost db p.id) f.id = some f' ∧
      t'.last_post =
        maxId (threadOkIds (db.posts.filter (fun r => r.id != p.id)) t.id) ∧
      f'.last_post = f.last_post := by
  obtain ⟨hfc1, hfc2⟩ := hfc
  have hT := deletePost_thread_lookup_surviving db t p hpu htu htm hpm hpt hsurv
  have hF := deletePost_forum_lookup_surviving db t p f
    hpu htu hfu htm hpm hfm hpt htf hsurv
  refine ⟨_, _, hT, hF, rfl, ?_⟩
  have hqp : q.id ≠ p.id := by
    intro hcon
    have : q = p := eq_of_key_unique Post.id db.posts hpu hq hpm hcon
    rw [this, hpt] at hqthread
    exact hqthread rfl
  have hold : maxId (forumOkIds db.threads db.posts f.id) = some q.id := by
    rw [← hfc2, hqlast]
  obtain ⟨hmm, hub⟩ := (maxId_eq_some_iff _ q.id).mp hold
  simp only [refreshForum]
  rw [hqlast, forumOkIds_filter_ne]
  apply (maxId_eq_some_iff _ q.id).mpr
  constructor
  · exact List.mem_filter.mpr ⟨hmm, by simpa using hqp⟩
  · intro x hx
    exact hub x (List.mem_filter.mp hx).1

/-- First post of thread 0 in the
`test_remove_post_last_in_thread_not_in_forum` scenario. -/
def c5post1 : Post :=
  { id := 1, threadId := 0, authorId := 0, body := "", moderation_state := ModState.OK }

/-- Second (most recent) post of thread 0 in the C5 scenario. -/
def c5post2 : Post :=
  { id := 2, threadId := 0, authorId := 0, body := "", moderation_state := ModState.OK }

/-- The post of thread 1 in the C5 scenario, the forum-wide most recent. -/
def c5post3 : Post :=
  { id := 3, threadId := 1, authorId := 0, body := "", moderation_state := ModState.OK }

/-- Thread 0 of the C5 scenario. -/
def c5thread0 : Thread :=
  { id := 0, forumId := 0, title := "testThread", authorId := 0,
    num_posts := 2, last_post := some 2, first_post := none }

/-- Thread 1 ("Another thread") of the C5 scenario. -/
def c5thread1 : Thread :=
  { id := 1, forumId := 0, title := "Another thread", authorId := 0,
    num_posts := 1, last_post := some 3, first_post := none }

/-- Forum of the C5 scenario, whose `last_post` lies in thread 1. -/
def c5forum : Forum :=
  { id := 0, name := "testForum", name_slug := "test_forum",
    description := "test", num_threads := 2, num_posts := 3, last_post := some 3 }

/-- Database of the `test_remove_post_last_in_thread_not_in_forum`
scenario. -/
def c5db : DB :=
  { forums := [c5forum], threads := [c5thread0, c5thread1],
    posts := [c5post1, c5post2, c5post3],
    subscriptions := [], nextPostId := 4, nextThreadId := 2, outbox := [] }

/-- Witness for C5: deleting post 2 moves thread 0's `last_post` to
post 1 while the forum's `last_post` stays at post 3. -/
theorem c5_witness :
    ∃ t' f', findThread (deletePost c5db 2) 0 = some t' ∧
      findForum (deletePost c5db 2) 0 = some f' ∧
      t'.last_post = some 1 ∧ f'.last_post = some 3 := by
  obtain ⟨t', f', hT, hF, hlp, hflp⟩ :=
    c5_forum_last_post_frame c5db c5thread0 c5post2 c5forum c5post3
      (by unfold uniquePostIds; decide) (by unfold uniqueThreadIds; decide)
      (by unfold uniqueForumIds; decide)
      (by decide) (by decide) (by decide) rfl rfl
      (by unfold forumPostsConsistent; decide)
      (by decide) (by decide) rfl
      ⟨c5post1, by decide, by decide, rfl⟩
  refine ⟨t', f', hT, hF, ?_, hflp⟩
  rw [hlp]
  decide

theorem length_filter_remove {α : Type} (key : α → Nat) (p : α → Bool)
    (a : α) (hp : p a = true) :
    ∀ l : List α, l.Pairwise (fun x y => key x ≠ key y) → a ∈ l →
    ((l.filter (fun x => key x != key a)).filter p).length + 1 =
      (l.filter p).length := by
  intro l
  induction l with
  | nil =>
    intro _ h
    cases h
  | cons b bs ih =>
    intro huniq hmem
    rcases List.pairwise_cons.mp huniq with ⟨hb, hbs⟩
    rcases List.mem_cons.mp hmem with rfl | hmemtail
    · rw [List.filter_cons, if_neg (by simp)]
      have htail : bs.filter (fun x => key x != key a) = bs := by
        apply List.filter_eq_self.mpr
        intro x hx
        simpa using fun h => (hb x hx) h.symm
      rw [htail, List.filter_cons, if_pos hp]
      simp
    · have hbk : key b ≠ key a := hb a hmemtail
      rw [List.filter_cons, if_pos (by simpa using hbk)]
      by_cases hpb : p b = true
      · rw [List.filter_cons, if_pos hpb, List.filter_cons, if_pos hpb]
        simp only [List.length_cons]
        have := ih hbs hmemtail
        omega
      · rw [List.filter_cons, if_neg hpb, List.filter_cons, if_neg hpb]
        exact ih hbs hmemtail

theorem find?_append_of_none {α : Type} (l1 l2 : List α) (p : α → Bool)
    (h : l1.find? p = none) : (l1 ++ l2).find? p = l2.find? p := by
  induction l1 with
  | nil => rfl
  | cons b bs ih =>
    have hb : p b = false := by
      by_cases hpb : p b = true
      · rw [List.find?_cons_of_pos _ hpb] at h
        cases h
      · simpa using hpb
    rw [List.find?_cons_of_neg _ (by simp [hb])] at h
    rw [List.cons_append, List.find?_cons_of_neg _ (by simp [hb])]
    exact ih h

/-- C6: a forum's `num_threads` counts its threads — creating a thread in
the forum increments it by one (and it then equals the count of the forum's
threads), deleting one of the forum's threads decrements it by one, and a
newly created forum starts at zero. -/
theorem c6_num_threads_counts_threads (db : DB) (f : Forum)
    (hfu : uniqueForumIds db) (hfm : f ∈ db.forums)
    (hcons : f.num_threads =
      (db.threads.filter (fun u => u.forumId == f.id)).length) :
    (∀ title author, ∃ f',
      findForum (createThread db f.id title author) f.id = some f' ∧
      f'.num_threads = f.num_threads + 1 ∧
      f'.num_threads =
        ((createThread db f.id title author).threads.filter
          (fun u => u.forumId == f.id)).length) ∧
    (∀ t, t ∈ db.threads → t.forumId = f.id → uniqueThreadIds db →
      ∃ f', findForum (deleteThread db t.id) f.id = some f' ∧
        f'.num_threads + 1 = f.num_threads) ∧
    (∀ fid nm slug descr, (∀ g, g ∈ db.forums → g.id ≠ fid) →
      ∃ f0, findForum (createForum db fid nm slug descr) fid = some f0 ∧
        f0.num_threads = 0) := by
  refine ⟨?_, ?_, ?_⟩
  · intro title author
    have hred : createThread db f.id title author =
        refreshForumIn
          { db with
            threads := db.threads ++
              [{ id := db.nextThreadId, forumId := f.id, title := title,
                 authorId := author, num_posts := 0, last_post := none,
                 first_post := none }],
            nextThreadId := db.nextThreadId + 1 } f.id := rfl
    have hff : findForum
        { db with
          threads := db.threads ++
            [{ id := db.nextThreadId, forumId := f.id, title := title,
               authorId := author, num_posts := 0, last_post := none,
               first_post := none }],
          nextThreadId := db.nextThreadId + 1 } f.id = some f :=
      findForum_of_mem _ f hfu hfm
    rw [hred, findForum_refreshForumIn_self _ f hff]
    refine ⟨_, rfl, ?_, ?_⟩
    · simp only [refreshForum]
      rw [List.filter_append, List.length_append]
      simp [hcons]
    · simp only [refreshForum]
      rfl
  · rintro t htm htf htu
    have hft : findThread db t.id = some t := findThread_of_mem db t htu htm
    have hff : findForum
        { db with
          threads := db.threads.filter (fun u => u.id != t.id),
          posts := db.posts.filter (fun p => p.threadId != t.id) } f.id =
        some f := findForum_of_mem _ f hfu hfm
    rw [deleteThread_eq_found db t hft, htf,
      findForum_refreshForumIn_self _ f hff]
    refine ⟨_, rfl, ?_⟩
    simp only [refreshForum]
    rw [hcons]
    have := length_filter_remove Thread.id (fun u => u.forumId == f.id) t
      (by simpa using htf) db.threads htu htm
    simpa using this
  · rintro fid nm slug descr hfresh
    have hnone : db.forums.find? (fun g => g.id == fid) = none := by
      apply List.find?_eq_none.mpr
      intro g hg
      simpa using hfresh g hg
    have hfind : findForum (createForum db fid nm slug descr) fid =
        some { id := fid, name := nm, name_slug := slug, description := descr,
               num_threads := 0, num_posts := 0, last_post := none } := by
      show ((db.forums ++
        [({ id := fid, name := nm, name_slug := slug, description := descr,
            num_threads := 0, num_posts := 0, last_post := none } : Forum)]).find?
          (fun g => g.id == fid)) =
        some { id := fid, name := nm, name_slug := slug, description := descr,
               num_threads := 0, num_posts := 0, last_post := none }
      rw [find?_append_of_none _ _ _ hnone]
      rw [List.find?_cons_of_pos _ (by simp)]
    exact ⟨_, hfind, rfl⟩

/-- Empty forum of the `test_add_and_remove_thread` scenario. -/
def c6forum0 : Forum :=
  { id := 0, name := "Second Forum", name_slug := "second_forum",
    description := "another forum", num_threads := 0, num_posts := 0,
    last_post := none }

/-- Database of the `test_add_and_remove_thread` scenario before any thread
is created. -/
def c6db0 : DB :=
  { forums := [c6forum0], threads := [], posts := [],
    subscriptions := [], nextPostId := 1, nextThreadId := 1, outbox := [] }

/-- The same forum once it carries two threads. -/
def c6forum1 : Forum :=
  { id := 0, name := "Second Forum", name_slug := "second_forum",
    description := "another forum", num_threads := 2, num_posts := 0,
    last_post := none }

/-- First thread of the `test_add_and_remove_thread` scenario. -/
def c6thread0 : Thread :=
  { id := 0, forumId := 0, title := "testThread", authorId := 0,
    num_posts := 0, last_post := none, first_post := none }

/-- Second thread of the `test_add_and_remove_thread` scenario. -/
def c6thread1 : Thread :=
  { id := 1, forumId := 0, title := "testThread", authorId := 0,
    num_posts := 0, last_post := none, first_post := none }

/-- Database of the `test_add_and_remove_thread` scenario with two
threads. -/
def c6db1 : DB :=
  { forums := [c6forum1], threads := [c6thread0, c6thread1], posts := [],
    subscriptions := [], nextPostId := 1, nextThreadId := 2, outbox := [] }

/-- Witness for C6: creating a thread in the empty forum raises
`num_threads` to 1, deleting one of two threads lowers it back, and a newly
created forum starts at 0. -/
theorem c6_witness :
    (∃ f', findForum (createThread c6db0 0 "testThread" 0) 0 = some f' ∧
      f'.num_threads = 1 ∧
      f'.num_threads = ((createThread c6db0 0 "testThread" 0).threads.filter
        (fun u => u.forumId == 0)).length) ∧
    (∃ f', findForum (deleteThread c6db1 1) 0 = some f' ∧
      f'.num_threads + 1 = 2) ∧
    (∃ f0, findForum (createForum c6db0 5 "f" "f_slug" "d") 5 = some f0 ∧
      f0.num_threads = 0) :=
  ⟨(c6_num_threads_counts_threads c6db0 c6forum0
      (by unfold uniqueForumIds; decide) (by decide) rfl).1 "testThread" 0,
   (c6_num_threads_counts_threads c6db1 c6forum1
      (by unfold uniqueForumIds; decide) (by decide) rfl).2.1 c6thread1
      (by decide) rfl (by unfold uniqueThreadIds; decide),
   (c6_num_threads_counts_threads c6db0 c6forum0
      (by unfold uniqueForumIds; decide) (by decide) rfl).2.2 5 "f" "f_slug" "d"
      (by decide)⟩

theorem subscribe_already (db : DB) (tid uid : Nat)
    (h : db.subscriptions.any
      (fun s => s.threadId == tid && s.subscriberId == uid) = true) :
    subscribe db tid uid = db := by
  unfold subscribe
  rw [h, if_pos rfl]

theorem subscribe_new (db : DB) (tid uid : Nat)
    (h : db.subscriptions.any
      (fun s => s.threadId == tid && s.subscriberId == uid) = false) :
    subscribe db tid uid =
      { db with subscriptions := db.subscriptions ++
          [{ threadId := tid, subscriberId := uid }] } := by
  unfold subscribe
  rw [h, if_neg Bool.false_ne_true]

/-- C7: subscriptions are deduplicated per (thread, subscriber) pair — from
no subscription, a subscribe request creates exactly one, a repeated
subscribe request creates no additional one, and an unsubscribe request
removes it. -/
theorem c7_subscription_dedup (db : DB) (tid uid : Nat)
    (h0 : subCount db tid uid = 0) :
    subCount (subscribe db tid uid) tid uid = 1 ∧
    subCount (subscribe (subscribe db tid uid) tid uid) tid uid = 1 ∧
    subCount (unsubscribe (subscribe db tid uid) tid uid) tid uid = 0 := by
  have hfil : db.subscriptions.filter
      (fun s => s.threadId == tid && s.subscriberId == uid) = [] := by
    have := h0
    unfold subCount at this
    exact List.length_eq_zero.mp this
  have hany : db.subscriptions.any
      (fun s => s.threadId == tid && s.subscriberId == uid) = false := by
    apply List.any_eq_false.mpr
    intro s hs hcon
    have hmem : s ∈ db.subscriptions.filter
        (fun s => s.threadId == tid && s.subscriberId == uid) :=
      List.mem_filter.mpr ⟨hs, hcon⟩
    rw [hfil] at hmem
    cases hmem
  have hsub1 : subscribe db tid uid =
      { db with subscriptions := db.subscriptions ++
          [{ threadId := tid, subscriberId := uid }] } :=
    subscribe_new db tid uid hany
  have hc1 : subCount (subscribe db tid uid) tid uid = 1 := by
    rw [hsub1]
    unfold subCount
    rw [List.filter_append, hfil]
    simp
  refine ⟨hc1, ?_, ?_⟩
  · have hany1 : (subscribe db tid uid).subscriptions.any
        (fun s => s.threadId == tid && s.subscriberId == uid) = true := by
      rw [hsub1]
      apply List.any_eq_true.mpr
      exact ⟨{ threadId := tid, subscriberId := uid },
        List.mem_append_right _ (List.mem_singleton_self _), by simp⟩
    rw [subscribe_already _ tid uid hany1, hc1]
  · unfold subCount unsubscribe
    rw [List.filter_filter]
    simp

/-- C8: visiting the thread page of a thread whose only post is unmoderated
answers HTTP 404 — content awaiting review is not visible. -/
theorem c8_unmoderated_thread_not_visible (db : DB) (t : Thread) (p : Post)
    (htf : findThread db t.id = some t)
    (hpm : p ∈ db.posts) (hpt : p.threadId = t.id)
    (hnm : p.moderation_state = ModState.NM)
    (honly : ∀ q, q ∈ db.posts → q.threadId = t.id → q = p) :
    viewThreadStatus db t.id = 404 := by
  unfold viewThreadStatus
  rw [htf]
  show (if (threadOkIds db.posts t.id).isEmpty = true then 404 else 200) = 404
  have hempty : threadOkIds db.posts t.id = [] := by
    apply List.eq_nil_iff_forall_not_mem.mpr
    intro x hx
    rcases mem_threadOkIds.mp hx with ⟨r, hr, hrt, hrok, hrid⟩
    have : r = p := honly r hr hrt
    rw [this, hnm] at hrok
    cases hrok
  rw [hempty]
  simp

/-- The single unmoderated post of the `test_cant_view_unmoderated_post`
scenario. -/
def c8post : Post :=
  { id := 1, threadId := 0, authorId := 0, body := "", moderation_state := ModState.NM }

/-- Thread of the `test_cant_view_unmoderated_post` scenario. -/
def c8thread : Thread :=
  { id := 0, forumId := 0, title := "testThread", authorId := 0,
    num_posts := 0, last_post := none, first_post := none }

/-- Database of the `test_cant_view_unmoderated_post` scenario. -/
def c8db : DB :=
  { forums := [{ id := 0, name := "Second Forum", name_slug := "second_forum",
                 description := "another forum", num_threads := 1,
                 num_posts := 0, last_post := none }],
    threads := [c8thread], posts := [c8post],
    subscriptions := [], nextPostId := 2, nextThreadId := 1, outbox := [] }

/-- Witness for C8: the thread holding only the unmoderated post answers
404. -/
theorem c8_witness : viewThreadStatus c8db 0 = 404 :=
  c8_unmoderated_thread_not_visible c8db c8thread c8post
    rfl (by decide) rfl rfl (by decide)

theorem outbox_createPost (db : DB) (tid author : Nat) (body : String)
    (ms : ModState) :
    (createPost db tid author body ms).outbox = db.outbox := by
  unfold createPost
  cases h : findThread db tid <;> rfl

/-- C9: a reply post in a thread sends a notification email to every
subscriber of the thread except the author of the new post — with two
subscribers, one of whom writes the reply, exactly one email is sent, and
its subject is "[freesound] topic reply notification - " followed by the
thread title. -/
theorem c9_reply_notifications (db : DB) (t : Thread) (u1 u2 : Nat)
    (body : String)
    (htu : uniqueThreadIds db) (htm : t ∈ db.threads)
    (hsubs : db.subscriptions.filter (fun s => s.threadId == t.id) =
      [{ threadId := t.id, subscriberId := u1 },
       { threadId := t.id, subscriberId := u2 }])
    (hne : u1 ≠ u2) :
    (replyPost db t.id u2 body).outbox =
      db.outbox ++
        [{ toUser := u1,
           subject :=
             "[freesound] topic reply notification - " ++ t.title }] := by
  have hft : findThread db t.id = some t := findThread_of_mem db t htu htm
  rw [replyPost_eq_found db t u2 body hft]
  show (createPost db t.id u2 body ModState.OK).outbox ++ _ = _
  rw [outbox_createPost]
  congr 1
  have hcomm : (fun s : Subscription =>
      s.threadId == t.id && s.subscriberId != u2) =
      (fun s : Subscription =>
        (s.subscriberId != u2) && (s.threadId == t.id)) := by
    funext s
    simp [Bool.and_comm]
  rw [hcomm, ← List.filter_filter, hsubs]
  rw [List.filter_cons, if_pos (by simpa using hne),
    List.filter_cons, if_neg (by simp)]
  rfl

/-- Thread of the `test_emails_sent_for_subscription_to_thread` scenario. -/
def c9thread : Thread :=
  { id := 0, forumId := 0, title := "Thread 0 of forum 0", authorId := 1,
    num_posts := 5, last_post := some 5, first_post := some 1 }

/-- Database of the `test_emails_sent_for_subscription_to_thread` scenario:
users 1 and 2 are both subscribed to the thread. -/
def c9db : DB :=
  { forums := [{ id := 0, name := "Forum 0", name_slug := "forum_0",
                 description := "Description of forum 0", num_threads := 1,
                 num_posts := 5, last_post := some 5 }],
    threads := [c9thread],
    posts := [{ id := 1, threadId := 0, authorId := 1, body := "",
                moderation_state := ModState.OK },
              { id := 2, threadId := 0, authorId := 1, body := "",
                moderation_state := ModState.OK },
              { id := 3, threadId := 0, authorId := 1, body := "",
                moderation_state := ModState.OK },
              { id := 4, threadId := 0, authorId := 1, body := "",
                moderation_state := ModState.OK },
              { id := 5, threadId := 0, authorId := 1, body := "",
                moderation_state := ModState.OK }],
    subscriptions := [{ threadId := 0, subscriberId := 1 },
                      { threadId := 0, subscriberId := 2 }],
    nextPostId := 6, nextThreadId := 1, outbox := [] }

/-- Witness for C9: user 2's reply sends exactly one email, to user 1, with
the subject of the test. -/
theorem c9_witness :
    (replyPost c9db 0 2 "Reply post body").outbox =
      c9db.outbox ++
        [{ toUser := 1,
           subject := "[freesound] topic reply notification - " ++
             "Thread 0 of forum 0" }] :=
  c9_reply_notifications c9db c9thread 1 2 "Reply post body"
    (by unfold uniqueThreadIds; decide) (by decide) (by decide) (by decide)

/-- C10: a post created without an explicit moderation state defaults to
`OK` and counts toward the aggregates immediately — the thread's and the
forum's `num_posts` each grow by one and both `last_post` references point
at the new post. -/
theorem c10_default_moderation_is_ok (db : DB) (t : Thread) (f : Forum)
    (author : Nat) (body : String)
    (htu : uniqueThreadIds db) (hfu : uniqueForumIds db)
    (htm : t ∈ db.threads) (hfm : f ∈ db.forums) (htf : t.forumId = f.id)
    (htc : threadConsistent db.posts t)
    (hfc : forumPostsConsistent db.threads db.posts f)
    (hfresh : ∀ q, q ∈ db.posts → q.id < db.nextPostId) :
    defaultModerationState = ModState.OK ∧
    ∃ t' f',
      findThread (createPostDefault db t.id author body) t.id = some t' ∧
      findForum (createPostDefault db t.id author body) f.id = some f' ∧
      t'.num_posts = t.num_posts + 1 ∧
      t'.last_post = some db.nextPostId ∧
      f'.num_posts = f.num_posts + 1 ∧
      f'.last_post = some db.nextPostId := by
  obtain ⟨htc1, htc2⟩ := htc
  obtain ⟨hfc1, hfc2⟩ := hfc
  obtain ⟨hT, hF⟩ := createPost_lookups db t f author body
    defaultModerationState htu hfu htm hfm htf
  have hsingT : threadOkIds
      [{ id := db.nextPostId, threadId := t.id, authorId := author,
         body := body, moderation_state := defaultModerationState }] t.id =
      [db.nextPostId] := by
    simp [threadOkIds, isOkPostOf, defaultModerationState]
  have hbel : threadBelongsTo f.id db.threads t.id = true :=
    List.any_eq_true.mpr ⟨t, htm, by simp [htf]⟩
  have hsingF : forumOkIds db.threads
      [{ id := db.nextPostId, threadId := t.id, authorId := author,
         body := body, moderation_state := defaultModerationState }] f.id =
      [db.nextPostId] := by
    simp [forumOkIds, isOkForumPost, hbel, defaultModerationState]
  refine ⟨rfl, _, _, hT, hF, ?_, ?_, ?_, ?_⟩
  · simp only [refreshThread]
    rw [threadOkIds_append, hsingT, List.length_append, htc1]
    rfl
  · simp only [refreshThread]
    rw [threadOkIds_append, hsingT]
    apply (maxId_eq_some_iff _ db.nextPostId).mpr
    constructor
    · exact List.mem_append_right _ (List.mem_singleton_self _)
    · intro x hx
      rcases List.mem_append.mp hx with hxold | hxnew
      · rcases mem_threadOkIds.mp hxold with ⟨r, hr, _, _, hrid⟩
        have := hfresh r hr
        omega
      · rcases List.mem_singleton.mp hxnew with rfl
        omega
  · simp only [refreshForum]
    rw [forumOkIds_append, hsingF, List.length_append, hfc1]
    rfl
  · simp only [refreshForum]
    rw [forumOkIds_append, hsingF]
    apply (maxId_eq_some_iff _ db.nextPostId).mpr
    constructor
    · exact List.mem_append_right _ (List.mem_singleton_self _)
    · intro x hx
      rcases List.mem_append.mp hx with hxold | hxnew
      · rcases mem_forumOkIds.mp hxold with ⟨r, hr, _, _, hrid⟩
        have := hfresh r hr
        omega
      · rcases List.mem_singleton.mp hxnew with rfl
        omega

/-- Database of the `test_user_subscribe_to_thread` scenario: a thread with
no subscription for user 2 yet. -/
def c7db : DB :=
  { forums := [{ id := 0, name := "Forum 0", name_slug := "forum_0",
                 description := "Description of forum 0", num_threads := 1,
                 num_posts := 5, last_post := some 5 }],
    threads := [{ id := 0, forumId := 0, title := "Thread 0 of forum 0",
                  authorId := 1, num_posts := 5, last_post := some 5,
                  first_post := some 1 }],
    posts := [{ id := 1, threadId := 0, authorId := 1, body := "",
                moderation_state := ModState.OK }],
    subscriptions := [], nextPostId := 6, nextThreadId := 1, outbox := [] }

/-- Witness for C7: user 2 subscribing once yields one subscription,
subscribing again still one, and unsubscribing removes it. -/
theorem c7_witness :
    subCount (subscribe c7db 0 2) 0 2 = 1 ∧
    subCount (subscribe (subscribe c7db 0 2) 0 2) 0 2 = 1 ∧
    subCount (unsubscribe (subscribe c7db 0 2) 0 2) 0 2 = 0 :=
  c7_subscription_dedup c7db 0 2 (by decide)

/-- Thread of the `test_add_moderated_post` scenario, still empty. -/
def c10thread : Thread :=
  { id := 0, forumId := 0, title := "testThread", authorId := 0,
    num_posts := 0, last_post := none, first_post := none }

/-- Forum of the `test_add_moderated_post` scenario. -/
def c10forum : Forum :=
  { id := 0, name := "testForum", name_slug := "test_forum",
    description := "test", num_threads := 1, num_posts := 0,
    last_post := none }

/-- Database of the `test_add_moderated_post` scenario. -/
def c10db : DB :=
  { forums := [c10forum], threads := [c10thread], posts := [],
    subscriptions := [], nextPostId := 1, nextThreadId := 1, outbox := [] }

/-- Witness for C10: creating a post with the default moderation state in
the empty thread raises both `num_posts` aggregates to 1 and points both
`last_post` references at the new post (id 1). -/
theorem c10_witness :
    defaultModerationState = ModState.OK ∧
    ∃ t' f',
      findThread (createPostDefault c10db 0 0 "") 0 = some t' ∧
      findForum (createPostDefault c10db 0 0 "") 0 = some f' ∧
      t'.num_posts = 1 ∧ t'.last_post = some 1 ∧
      f'.num_posts = 1 ∧ f'.last_post = some 1 :=
  c10_default_moderation_is_ok c10db c10thread c10forum 0 ""
    (by unfold uniqueThreadIds; decide) (by unfold uniqueForumIds; decide)
    (by decide) (by decide) rfl
    (by unfold threadConsistent; decide)
    (by unfold forumPostsConsistent; decide)
    (by decide)
